import Mathlib

/-!
# Verification of the `trajectory_analyzer` derivation & dual-engine core

Shallow embedding of the Python sources under `src/trajectory_analyzer/`:

* `catalog.py`    — `TableSpec`, `InMemoryCatalog`, `ReadFilters`,
  `_iso_dates`, `resolve_partition_paths`.
* `derivation.py` — `assign_turn_index`, `build_model_spans`,
  `build_sessions` (pandas batch pipeline).
* `derivation_ops.py` — `BuildTurnsAndErrors.transform` (arrow operator).
* `operators.py`  — `normalize_op_output`.
* `context.py`    — `Context.apply`, multi-output fan-out path.
* `analysis/runner.py` — `PlannerConfig`, `AnalysisRunner.choose_engine`.

Modelling conventions: pandas/arrow tables are `List` of row structures;
nullable columns are `Option`; timestamps are integer epoch milliseconds
(so `(end - start).total_seconds() * 1000` is plain subtraction);
Python dicts are insertion-ordered association lists (`dictSet` keeps an
existing key's position and appends new keys, exactly like dict update);
calendar dates are proleptic ordinals (`Nat`, as `date.toordinal`), so
`timedelta(days=1)` is `+ 1` and `(to - from).days` is subtraction.
-/

/-- Insertion-ordered dictionary lookup (`d.get(k)` / `d[k]`). -/
def dictGet {κ α : Type} [DecidableEq κ] (l : List (κ × α)) (k : κ) : Option α :=
  match l with
  | [] => none
  | (k', v) :: t => if k' = k then some v else dictGet t k

/-- Insertion-ordered dictionary update (`d[k] = v`): replaces in place,
appends a fresh key at the end — Python dict semantics. -/
def dictSet {κ α : Type} [DecidableEq κ] (l : List (κ × α)) (k : κ) (v : α) :
    List (κ × α) :=
  match l with
  | [] => [(k, v)]
  | (k', v') :: t => if k' = k then (k, v) :: t else (k', v') :: dictSet t k v

theorem dictGet_dictSet_self {κ α : Type} [DecidableEq κ]
    (l : List (κ × α)) (k : κ) (v : α) : dictGet (dictSet l k v) k = some v := by
  induction l with
  | nil => simp [dictGet, dictSet]
  | cons p t ih =>
    by_cases h : p.1 = k
    · simp [dictSet, dictGet, h]
    · simp [dictSet, dictGet, h, ih]

theorem dictGet_dictSet_other {κ α : Type} [DecidableEq κ]
    (l : List (κ × α)) (k k' : κ) (v : α) (hne : k' ≠ k) :
    dictGet (dictSet l k v) k' = dictGet l k' := by
  induction l with
  | nil => simp [dictGet, dictSet, Ne.symm hne]
  | cons p t ih =>
    by_cases h : p.1 = k
    · simp [dictSet, dictGet, h, Ne.symm hne]
    · simp [dictSet, dictGet, h, ih]

/-- Stable insertion sort (models pandas `sort_values(..., kind="stable")`):
an element is placed before every element it compares `le`-true against,
so ties keep their original relative order. -/
def insertLe {α : Type} (le : α → α → Bool) (x : α) : List α → List α
  | [] => [x]
  | y :: ys => if le x y then x :: y :: ys else y :: insertLe le x ys

/-- Stable sort by a boolean comparator. -/
def stableSortBy {α : Type} (le : α → α → Bool) : List α → List α
  | [] => []
  | x :: xs => insertLe le x (stableSortBy le xs)

/-- Keep the first occurrence of each element, in order of first
appearance (pandas `drop_duplicates(keep="first")` on group keys). -/
def dedupFirstAux {α : Type} [DecidableEq α] (seen : List α) : List α → List α
  | [] => []
  | x :: xs =>
    if x ∈ seen then dedupFirstAux seen xs
    else x :: dedupFirstAux (x :: seen) xs

def dedupFirst {α : Type} [DecidableEq α] (l : List α) : List α :=
  dedupFirstAux [] l

/-- Minimum of `f` over a list, `0` on the empty list (groups are nonempty
wherever this is used, mirroring pandas `agg("min")`). -/
def listMinD {α : Type} (f : α → Int) : List α → Int
  | [] => 0
  | x :: xs => xs.foldl (fun m y => min m (f y)) (f x)

/-- Maximum of `f` over a list, `0` on the empty list (pandas `agg("max")`). -/
def listMaxD {α : Type} (f : α → Int) : List α → Int
  | [] => 0
  | x :: xs => xs.foldl (fun m y => max m (f y)) (f x)

/-- One canonical event row (the flat adapter schema of §6 consumed by
`derivation.py`; only columns read by the embedded functions appear).
Nullable columns are `Option`. -/
structure Event where
  dt : String := ""
  app_id : String := ""
  session_id : String := ""
  event_id : Int := 0
  ts : Int := 0
  event_type : String := ""
  turn_index : Option Int := none
  agent_id : Option String := none
  request_id : Option String := none
  model : Option String := none
  provider : Option String := none
  input_tokens : Option Int := none
  output_tokens : Option Int := none
  cache_tokens : Option Int := none
  ttft_ms : Option Int := none
  latency_ms : Option Int := none
  tool_name : Option String := none
  tool_latency_ms : Option Int := none
  exit_code : Option Int := none
  error_type : Option String := none
  error_code : Option String := none
  user_id : Option String := none
  agent_impl : Option String := none
  agent_version : Option String := none
  deriving DecidableEq, Repr

/-- Comparator for `sort_values(["session_id", "ts", "event_id"])`. -/
def evLe (a b : Event) : Bool :=
  if a.session_id ≠ b.session_id then decide (a.session_id < b.session_id)
  else if a.ts ≠ b.ts then decide (a.ts < b.ts)
  else decide (a.event_id ≤ b.event_id)

/-- Per-session cumulative count of `turn_start` rows
(`starts.groupby(session_id).cumsum()` scanned in sorted order), with a
zero count mapped to null. -/
def assignGo (counters : List (String × Nat)) : List Event → List Event
  | [] => []
  | e :: rest =>
    let c := ((dictGet counters e.session_id).getD 0)
      + (if e.event_type = "turn_start" then 1 else 0)
    { e with turn_index := if c = 0 then none else some (c : Int) }
      :: assignGo (dictSet counters e.session_id c) rest

/-- `derivation.assign_turn_index`: sort by `(session_id, ts, event_id)`
(stable), set `turn_index` to the running count of `turn_start` events of
the session, and null it out where the count is still `0`. -/
def assign_turn_index (events : List Event) : List Event :=
  assignGo [] (stableSortBy evLe events)

/-- `Series.clip(lower=lo)` on integers. -/
def clipLower (x lo : Int) : Int := if x < lo then lo else x

theorem clipLower_one_eq_max (l : Int) : clipLower l 1 = max l 1 := by
  unfold clipLower
  rcases lt_or_ge l 1 with h | h
  · simp [h, max_eq_right h.le]
  · simp [not_lt.mpr h, max_eq_left h]

/-- `(output_tokens * 1000.0) / latency_ms.clip(lower=1)`; null when either
operand is null (pandas propagates missing values). -/
def otpsOf (outTok latency : Option Int) : Option ℚ :=
  match outTok, latency with
  | some o, some l => some ((o * 1000 : ℚ) / ((clipLower l 1 : Int) : ℚ))
  | _, _ => none

/-- One row of the `model_spans` table built by `build_model_spans`. -/
structure SpanRow where
  dt : String
  app_id : String
  session_id : String
  turn_index : Option Int
  span_id : Option String
  parent_span_id : Option String
  agent_id : Option String
  model : Option String
  provider : Option String
  start_ts : Int
  end_ts : Int
  ttft_ms : Option Int
  latency_ms : Option Int
  input_tokens : Option Int
  output_tokens : Option Int
  cache_tokens : Option Int
  otps : Option ℚ
  tool_intents_count : Option Int
  malformed_tool_call : Bool
  deriving DecidableEq, Repr

/-- The merged row for one `(llm_request, llm_response)` pair sharing a
`request_id` (suffixes `_req`/`_res` resolved onto distinct fields). -/
def mkSpan (q s : Event) : SpanRow :=
  { dt := q.dt
    app_id := q.app_id
    session_id := q.session_id
    turn_index := q.turn_index
    span_id := q.request_id
    parent_span_id := none
    agent_id := q.agent_id
    model := q.model
    provider := q.provider
    start_ts := q.ts
    end_ts := s.ts
    ttft_ms := s.ttft_ms
    latency_ms := s.latency_ms
    input_tokens := q.input_tokens
    output_tokens := s.output_tokens
    cache_tokens := s.cache_tokens
    otps := otpsOf s.output_tokens s.latency_ms
    tool_intents_count := none
    malformed_tool_call := false }

/-- `derivation.build_model_spans`: inner merge of `llm_request` rows with
`llm_response` rows on `request_id` (pandas merge keeps, for each left row
in order, every matching right row in order; null keys match null keys). -/
def build_model_spans (raw : List Event) : List SpanRow :=
  let req := raw.filter (fun e => e.event_type == "llm_request")
  let res := raw.filter (fun e => e.event_type == "llm_response")
  req.flatMap (fun q => (res.filter (fun s => s.request_id == q.request_id)).map (mkSpan q))

/-- `catalog.TableSpec` (frozen dataclass). -/
structure TableSpec where
  name : String
  path : String
  format : String
  schema_version : String
  partition_keys : List String
  description : String := ""
  deriving DecidableEq, Repr

/-- `catalog.ReadFilters`. Date-valued fields hold proleptic ordinals
(see header); `none` is the Python `None` default. -/
structure ReadFilters where
  dt : Option Nat := none
  dt_from : Option Nat := none
  dt_to : Option Nat := none
  app_id : Option String := none
  session_id : Option String := none
  deriving DecidableEq, Repr

/-- ISO rendering of an ordinal date (`date.isoformat()`); the ordinal's
decimal digits stand in for the `YYYY-MM-DD` text, preserving injectivity
and the ascending order of the underlying dates. -/
def dateIso (d : Nat) : String := toString d

/-- `catalog._iso_dates`: `while cur <= end: append cur; cur += 1 day`. -/
def isoDates (start endd : Nat) : List Nat :=
  if start ≤ endd then start :: isoDates (start + 1) endd else []
termination_by endd + 1 - start
decreasing_by omega

theorem isoDates_eq_range' (start endd : Nat) :
    isoDates start endd = List.range' start (endd + 1 - start) := by
  by_cases h : start ≤ endd
  · have hlen : endd + 1 - start = (endd + 1 - (start + 1)) + 1 := by omega
    rw [isoDates, if_pos h, hlen, List.range'_succ, isoDates_eq_range' (start + 1) endd]
  · rw [isoDates, if_neg h]
    have : endd + 1 - start = 0 := by omega
    rw [this, List.range'_zero]
termination_by endd + 1 - start
decreasing_by omega

/-- Python truthiness of `x or default` for an optional string: `None` and
the empty string both fall back to the default. -/
def pyOr (x : Option String) (d : String) : String :=
  match x with
  | none => d
  | some s => if s = "" then d else s

/-- Python f-string rendering of a possibly-`None` string
(`f"{None}"` is the text `"None"`). -/
def pyStr (x : Option String) : String :=
  match x with
  | none => "None"
  | some s => s

/-- `str(root / f"dt={d}" / f"app_id={app}" / f"session_id={session}" / "*.parquet")`. -/
def partPattern (root d app session : String) : String :=
  root ++ "/dt=" ++ d ++ "/app_id=" ++ app ++ "/session_id=" ++ session ++ "/*.parquet"

/-- The `days` list of `resolve_partition_paths` (date strings, or `"*"`). -/
def daysOf (f : ReadFilters) : List String :=
  match f.dt with
  | some d => [dateIso d]
  | none =>
    match f.dt_from, f.dt_to with
    | some a, some b => (isoDates a b).map dateIso
    | some a, none => [dateIso a]
    | none, some b => [dateIso b]
    | none, none => ["*"]

/-- `app = filters.app_id or "*"`. -/
def appSeg (f : ReadFilters) : String := pyOr f.app_id "*"

/-- `session = filters.session_id if "session_id" in spec.partition_keys else "*"`. -/
def sessSeg (spec : TableSpec) (f : ReadFilters) : String :=
  if "session_id" ∈ spec.partition_keys then pyStr f.session_id else "*"

/-- `catalog.resolve_partition_paths`. -/
def resolve_partition_paths (spec : TableSpec) (filters : Option ReadFilters) :
    List String :=
  match filters with
  | none => [spec.path ++ "/**/*.parquet"]
  | some f => (daysOf f).map (fun d => partPattern spec.path d (appSeg f) (sessSeg spec f))

/-- `catalog.InMemoryCatalog` (its `_tables` dict). -/
structure InMemoryCatalog where
  tables : List (String × TableSpec) := []
  deriving DecidableEq, Repr

namespace InMemoryCatalog

/-- `register(table, spec)`: `self._tables[table] = spec`. -/
def register (c : InMemoryCatalog) (table : String) (spec : TableSpec) : InMemoryCatalog :=
  ⟨dictSet c.tables table spec⟩

/-- `get(table)`: raises `KeyError` for an unknown name. -/
def get (c : InMemoryCatalog) (table : String) : Except String TableSpec :=
  match dictGet c.tables table with
  | some s => Except.ok s
  | none => Except.error ("Unknown table " ++ table)

/-- `__init__(specs)`: registers each spec under its own name, in order. -/
def ofSpecs (specs : List TableSpec) : InMemoryCatalog :=
  specs.foldl (fun c s => c.register s.name s) ⟨[]⟩

end InMemoryCatalog

/-- `analysis/runner.PlannerConfig` (threshold default `20 * 1024**3`). -/
structure PlannerConfig where
  distributed_scan_threshold_bytes : Int := 20 * 1024 * 1024 * 1024
  deriving DecidableEq, Repr

/-- The two engines held by `AnalysisRunner` (`duckdb_engine` / `ray_engine`). -/
inductive EngineKind where
  | duckdb
  | ray
  deriving DecidableEq, Repr

/-- The slice of an `AnalysisPlugin` read by `choose_engine`. -/
structure PluginMeta where
  requires_distributed : Bool
  deriving DecidableEq, Repr

/-- The params mapping slice read by `choose_engine`
(`params.get("estimated_scan_bytes", 0)`). -/
structure RunParams where
  estimated_scan_bytes : Option Int := none
  deriving DecidableEq, Repr

/-- `AnalysisRunner.choose_engine`. -/
def choose_engine (config : PlannerConfig) (plugin : PluginMeta)
    (params : RunParams) : EngineKind :=
  if plugin.requires_distributed then EngineKind.ray
  else if params.estimated_scan_bytes.getD 0 ≥ config.distributed_scan_threshold_bytes then
    EngineKind.ray
  else EngineKind.duckdb

/-- An operator `transform` return value (`operators.normalize_op_output`
input): either a single bare table or a mapping from output name to table.
A table is a list of rows; the mapping keeps Python dict ordering. -/
inductive OpOut (ρ : Type) where
  | single (t : List ρ)
  | multi (m : List (String × List ρ))
  deriving DecidableEq, Repr

/-- `set(keys) == set(outputs)` as a boolean. -/
def keySetEq (ks os : List String) : Bool :=
  ks.all (fun k => os.contains k) && os.all (fun o => ks.contains o)

/-- `operators.normalize_op_output`: a dict result must carry exactly the
declared output names; a bare table requires exactly one declared output.
(`_to_arrow` is the identity here because modelled outputs are already
tables.) -/
def normalize_op_output {ρ : Type} (out : OpOut ρ) (outputs : List String) :
    Except String (List (String × List ρ)) :=
  match out with
  | OpOut.multi m =>
    if keySetEq (m.map Prod.fst) outputs then Except.ok m
    else Except.error "Operator dict outputs do not match expected"
  | OpOut.single t =>
    match outputs with
    | [o] => Except.ok [(o, t)]
    | _ => Except.error "Single-table operator output requires exactly one declared output."

/-- `Context.apply`'s multi-output `fanout`: tag every row of every named
output with the discriminator (`row["__output__"] = name`) and concatenate.
Zero rows overall yield the empty tagged table (the source materializes it
as an explicit empty table carrying only the `__output__` column). -/
def fanout {ρ : Type} (outMap : List (String × List ρ)) : List (String × ρ) :=
  outMap.flatMap (fun nt => nt.2.map (fun r => (nt.1, r)))

/-- Per-batch mapping with error propagation (`ds.map_batches` over a
transform that may raise). -/
def mapExcept {α β : Type} (f : α → Except String β) : List α → Except String (List β)
  | [] => Except.ok []
  | x :: xs => do
    let y ← f x
    let ys ← mapExcept f xs
    pure (y :: ys)

/-- `Context.apply`, multi-output branch: build the tagged stream batch by
batch, then materialize one dataset per declared output by filtering on
the discriminator and dropping it. A dataset is a list of batches. -/
def applyMulti {ι ρ : Type} (outputs : List String) (transform : List ι → OpOut ρ)
    (ds : List (List ι)) : Except String (List (String × List (List ρ))) := do
  let mixed ← mapExcept (fun b => (normalize_op_output (transform b) outputs).map fanout) ds
  pure (outputs.map (fun n =>
    (n, mixed.map (fun batch => (batch.filter (fun tr => tr.1 == n)).map Prod.snd))))

/-- The arrow-side row schema consumed by `BuildTurnsAndErrors.transform`
(`tbl.to_pydict()` column accesses). -/
structure OpRow where
  dt : String := ""
  app_id : String := ""
  session_id : Option String := none
  event_type : Option String := none
  turn_index : Option Int := none
  error_type : Option String := none
  error_code : Option String := none
  deriving DecidableEq, Repr

/-- Accumulated per-turn counters (`turns_rows` dict values before the
`status` column is appended). -/
structure TurnAcc where
  dt : String
  app_id : String
  session_id : String
  turn_index : Int
  react_iters : Nat
  error_count : Nat
  deriving DecidableEq, Repr

/-- One row of the operator's `turns` output (with the appended `status`
column). -/
structure TurnRowS where
  dt : String
  app_id : String
  session_id : String
  turn_index : Int
  react_iters : Nat
  error_count : Nat
  status : String
  deriving DecidableEq, Repr

/-- One row of the operator's `errors` output. -/
structure ErrRow where
  dt : String
  app_id : String
  session_id : String
  turn_index : Int
  error_type : Option String
  error_code : Option String
  deriving DecidableEq, Repr

/-- A row of either output of `BuildTurnsAndErrors` (the two outputs have
different schemas; the fan-out stream mixes them). -/
inductive TRow where
  | turn (t : TurnRowS)
  | err (e : ErrRow)
  deriving DecidableEq, Repr

/-- The turn-index decision of one loop iteration of
`BuildTurnsAndErrors.transform`: an explicit `turn_index` re-anchors the
session's counter; otherwise a `turn_start` increments it and other rows
read it (null when the session has no counter yet). Returns the updated
counters and the index assigned to the row. -/
def assignIdx (counters : List (String × Int)) (sid : String)
    (ev : Option String) (explicit : Option Int) :
    List (String × Int) × Option Int :=
  match explicit with
  | some v => (dictSet counters sid v, some v)
  | none =>
    if ev == some "turn_start" then
      let cur := (dictGet counters sid).getD 0 + 1
      (dictSet counters sid cur, some cur)
    else (counters, dictGet counters sid)

/-- Loop state of `BuildTurnsAndErrors.transform`: `turn_counters`,
`turns_rows` (insertion-ordered dict) and `error_rows`. -/
structure BState where
  counters : List (String × Int)
  turns : List ((String × String × String × Int) × TurnAcc)
  errors : List ErrRow
  deriving Repr

/-- One iteration of the row loop of `BuildTurnsAndErrors.transform`. -/
def buildStep (st : BState) (r : OpRow) : BState :=
  match r.session_id with
  | none => st
  | some sid =>
    let p := assignIdx st.counters sid r.event_type r.turn_index
    match p.2 with
    | none => { st with counters := p.1 }
    | some tidx =>
      let key := (r.dt, r.app_id, sid, tidx)
      let acc0 := (dictGet st.turns key).getD
        { dt := r.dt, app_id := r.app_id, session_id := sid, turn_index := tidx,
          react_iters := 0, error_count := 0 }
      let acc1 := if r.event_type == some "llm_request" then
        { acc0 with react_iters := acc0.react_iters + 1 } else acc0
      let acc2 := if r.event_type == some "error" then
        { acc1 with error_count := acc1.error_count + 1 } else acc1
      { counters := p.1
        turns := dictSet st.turns key acc2
        errors := if r.event_type == some "error" then
          st.errors ++ [{ dt := r.dt, app_id := r.app_id, session_id := sid,
                          turn_index := tidx, error_type := r.error_type,
                          error_code := r.error_code }]
          else st.errors }

/-- The appended `status` column: `"fail"` iff `error_count > 0`. -/
def withStatus (a : TurnAcc) : TurnRowS :=
  { dt := a.dt, app_id := a.app_id, session_id := a.session_id,
    turn_index := a.turn_index, react_iters := a.react_iters,
    error_count := a.error_count,
    status := if a.error_count > 0 then "fail" else "success" }

/-- `BuildTurnsAndErrors.transform`: the zero-row batch short-circuits to
two empty tables; otherwise the row loop runs and `status` is appended to
the (possibly empty) `turns` table. -/
def buildTurnsAndErrors (rows : List OpRow) : OpOut TRow :=
  if rows.isEmpty then OpOut.multi [("turns", []), ("errors", [])]
  else
    let st := rows.foldl buildStep ⟨[], [], []⟩
    OpOut.multi
      [("turns", st.turns.map (fun kv => TRow.turn (withStatus kv.2))),
       ("errors", st.errors.map TRow.err)]

/-- The declared outputs of `BuildTurnsAndErrors`. -/
def buildTurnsAndErrorsOutputs : List String := ["turns", "errors"]

/-- The session counters after the loop has consumed `rows`. -/
def countersAfter (rows : List OpRow) : List (String × Int) :=
  (rows.foldl buildStep ⟨[], [], []⟩).counters

/-- One row of the pandas `build_turns` output (the `turns` table consumed
by `build_sessions`). -/
structure TurnRowP where
  dt : String := ""
  app_id : String := ""
  session_id : String := ""
  turn_index : Option Int := none
  start_ts : Int := 0
  end_ts : Int := 0
  duration_ms : Int := 0
  user_msg_event_id : Option String := none
  query_level : Option String := none
  mmu : Option Int := none
  status : String := "success"
  finish_event_type : Option String := none
  react_iters : Int := 0
  model_spans_count : Int := 0
  tool_calls_count : Int := 0
  condense_count : Int := 0
  todo_update_count : Int := 0
  error_count : Int := 0
  input_tokens : Int := 0
  output_tokens : Int := 0
  cache_tokens : Int := 0
  avg_ttft_ms : Option ℚ := none
  avg_otps : Option ℚ := none
  deriving DecidableEq, Repr

/-- One row of the `build_sessions` output. -/
structure SessionRow where
  dt : String
  app_id : String
  session_id : String
  user_id : Option String
  agent_impl : Option String
  agent_version : Option String
  start_ts : Int
  end_ts : Int
  duration_ms : Int
  status : String
  success_reason : Option String
  turns_count : Nat
  model_spans_count : Int
  tool_calls_count : Int
  total_input_tokens : Int
  total_output_tokens : Int
  total_cache_tokens : Int
  total_cost_usd : Option Int
  first_error_turn : Option Int
  first_error_type : Option String
  deriving DecidableEq, Repr

/-- Lexicographic comparator on the `(dt, app_id, session_id)` group key
(pandas `groupby` sorts group keys). -/
def key3Le (a b : String × String × String) : Bool :=
  if a.1 ≠ b.1 then decide (a.1 < b.1)
  else if a.2.1 ≠ b.2.1 then decide (a.2.1 < b.2.1)
  else decide (a.2.2 ≤ b.2.2)

/-- `≤` on a nullable sort column with nulls last (pandas
`sort_values` default `na_position="last"`). -/
def optIntLeNaLast : Option Int → Option Int → Bool
  | some x, some y => decide (x ≤ y)
  | some _, none => true
  | none, some _ => false
  | none, none => true

/-- Comparator for `sort_values(["session_id", "turn_index"])`. -/
def feLe (a b : Event) : Bool :=
  if a.session_id ≠ b.session_id then decide (a.session_id < b.session_id)
  else optIntLeNaLast a.turn_index b.turn_index

/-- `build_sessions`' `first_errors` lookup: filter `error` events, stable
sort by `(session_id, turn_index)`, keep the first row per session
(`drop_duplicates(keep="first")` + left merge on `session_id`). -/
def firstErrorOf (raw : List Event) (sid : String) : Option Event :=
  (stableSortBy feLe (raw.filter (fun e => e.event_type == "error"))).find?
    (fun e => e.session_id == sid)

/-- `build_sessions`' `meta` lookup: stable sort by
`(session_id, ts, event_id)` and keep the chronologically first raw event
of the session. -/
def metaOf (raw : List Event) (sid : String) : Option Event :=
  (stableSortBy evLe raw).find? (fun e => e.session_id == sid)

/-- `derivation.build_sessions`: group turns by `(dt, app_id, session_id)`
(keys sorted), aggregate, set the constant `status = "success"` column,
and left-merge the first-error and session-metadata lookups. -/
def build_sessions (turns : List TurnRowP) (raw : List Event) : List SessionRow :=
  let keys := stableSortBy key3Le
    (dedupFirst (turns.map (fun t => (t.dt, t.app_id, t.session_id))))
  keys.map (fun k =>
    let g := turns.filter (fun t => (t.dt, t.app_id, t.session_id) == k)
    let start_ts := listMinD (fun t => t.start_ts) g
    let end_ts := listMaxD (fun t => t.end_ts) g
    let fe := firstErrorOf raw k.2.2
    let me := metaOf raw k.2.2
    { dt := k.1
      app_id := k.2.1
      session_id := k.2.2
      user_id := me.bind Event.user_id
      agent_impl := me.bind Event.agent_impl
      agent_version := me.bind Event.agent_version
      start_ts := start_ts
      end_ts := end_ts
      duration_ms := end_ts - start_ts
      status := "success"
      success_reason := none
      turns_count := g.countP (fun t => t.turn_index.isSome)
      model_spans_count := (g.map (fun t => t.model_spans_count)).sum
      tool_calls_count := (g.map (fun t => t.tool_calls_count)).sum
      total_input_tokens := (g.map (fun t => t.input_tokens)).sum
      total_output_tokens := (g.map (fun t => t.output_tokens)).sum
      total_cache_tokens := (g.map (fun t => t.cache_tokens)).sum
      total_cost_usd := none
      first_error_turn := fe.bind Event.turn_index
      first_error_type := fe.bind Event.error_type })

/-- `true` iff the `Except` value is an error (a raised exception). -/
def isErr {α : Type} : Except String α → Bool
  | Except.error _ => true
  | Except.ok _ => false

/-- Concrete specs used by witnesses and counterexamples. -/
def specA : TableSpec :=
  { name := "sessions", path := "lake/derived/sessions", format := "parquet",
    schema_version := "v2", partition_keys := ["dt", "app_id"] }

def specB : TableSpec :=
  { name := "turns", path := "lake/derived/turns", format := "parquet",
    schema_version := "v2", partition_keys := ["dt", "app_id"] }

/-- A registered table whose partition keys contain neither `app_id` nor
`session_id` in the session slot (from `build_default_catalog`). -/
def specEvalRuns : TableSpec :=
  { name := "eval_runs", path := "lake/derived/eval_runs", format := "parquet",
    schema_version := "v2", partition_keys := ["dt", "benchmark", "model"] }

/-- C2: engine selection routes to the distributed engine whenever the
plugin requires it; otherwise it picks the distributed engine exactly when
the caller-supplied estimated scan size reaches the configured threshold
and the local engine strictly below it; the default threshold is
`20 * 1024^3` bytes (20 GiB). -/
theorem choose_engine_policy (cfg : PlannerConfig) (plugin : PluginMeta)
    (params : RunParams) :
    (plugin.requires_distributed = true →
      choose_engine cfg plugin params = EngineKind.ray)
    ∧ (plugin.requires_distributed = false →
      (choose_engine cfg plugin params = EngineKind.ray ↔
        cfg.distributed_scan_threshold_bytes ≤ params.estimated_scan_bytes.getD 0)
      ∧ (choose_engine cfg plugin params = EngineKind.duckdb ↔
        params.estimated_scan_bytes.getD 0 < cfg.distributed_scan_threshold_bytes))
    ∧ ({} : PlannerConfig).distributed_scan_threshold_bytes = 20 * 1024 * 1024 * 1024 := by
  refine ⟨?_, ?_, rfl⟩
  · intro h
    simp [choose_engine, h]
  · intro h
    unfold choose_engine
    rw [h]
    by_cases hs : params.estimated_scan_bytes.getD 0 ≥ cfg.distributed_scan_threshold_bytes
    · simp [hs, le_of_lt, not_lt.mpr hs]
    · simp [hs, not_le.mp hs, lt_iff_not_ge]

theorem choose_engine_policy_witness :
    choose_engine {} ⟨true⟩ {} = EngineKind.ray
    ∧ choose_engine {} ⟨false⟩ ⟨some 5⟩ = EngineKind.duckdb :=
  ⟨(choose_engine_policy {} ⟨true⟩ {}).1 rfl,
   ((choose_engine_policy {} ⟨false⟩ ⟨some 5⟩).2.1 rfl).2.mpr (by decide)⟩

/-- C8: `register` then `get` with the same name returns exactly the
registered spec; registering twice under one name keeps only the later
spec; other names are unaffected. -/
theorem catalog_register_get (c : InMemoryCatalog) (n m : String) (s s' : TableSpec) :
    (c.register n s).get n = Except.ok s
    ∧ ((c.register n s).register n s').get n = Except.ok s'
    ∧ (m ≠ n → (c.register n s).get m = c.get m) := by
  refine ⟨?_, ?_, ?_⟩
  · simp [InMemoryCatalog.register, InMemoryCatalog.get, dictGet_dictSet_self]
  · simp [InMemoryCatalog.register, InMemoryCatalog.get, dictGet_dictSet_self]
  · intro h
    simp [InMemoryCatalog.register, InMemoryCatalog.get,
      dictGet_dictSet_other _ _ _ _ h]

theorem catalog_register_get_witness :
    ((InMemoryCatalog.mk []).register "a" specA).get "a" = Except.ok specA
    ∧ (((InMemoryCatalog.mk []).register "a" specA).register "a" specB).get "a"
        = Except.ok specB
    ∧ ((InMemoryCatalog.mk []).register "a" specA).get "b"
        = (InMemoryCatalog.mk []).get "b" :=
  ⟨(catalog_register_get ⟨[]⟩ "a" "b" specA specB).1,
   (catalog_register_get ⟨[]⟩ "a" "b" specA specB).2.1,
   (catalog_register_get ⟨[]⟩ "a" "b" specA specB).2.2 (by decide)⟩

/-- C7: a dict-valued operator output whose key set differs from the
declared output names is rejected with a validation error; so is a bare
single table when more than one output is declared; a dict that passes
validation is returned unchanged (nothing is dropped or renamed). -/
theorem normalize_op_output_validation {ρ : Type} (m : List (String × List ρ))
    (outs : List String) (t : List ρ) :
    (keySetEq (m.map Prod.fst) outs = false →
      isErr (normalize_op_output (OpOut.multi m) outs) = true)
    ∧ (1 < outs.length →
      isErr (normalize_op_output (OpOut.single t) outs) = true)
    ∧ (∀ r, normalize_op_output (OpOut.multi m) outs = Except.ok r → r = m) := by
  refine ⟨?_, ?_, ?_⟩
  · intro h
    simp [normalize_op_output, h, isErr]
  · intro h
    match outs, h with
    | o₁ :: o₂ :: rest, _ => simp [normalize_op_output, isErr]
  · intro r hr
    by_cases h : keySetEq (m.map Prod.fst) outs
    · exact (by simpa [normalize_op_output, h] using hr : m = r).symm
    · simp [normalize_op_output, h] at hr

theorem normalize_op_output_validation_witness :
    isErr (normalize_op_output (OpOut.multi [("wrong", [1])]) ["turns", "errors"]) = true
    ∧ isErr (normalize_op_output (OpOut.single ([2] : List Nat)) ["turns", "errors"]) = true :=
  ⟨(normalize_op_output_validation [("wrong", [1])] ["turns", "errors"] [2]).1 (by decide),
   (normalize_op_output_validation [("wrong", [1])] ["turns", "errors"] [2]).2.1 (by decide)⟩

theorem resolve_range_eq (spec : TableSpec) (f : ReadFilters) (a b : Nat)
    (h1 : f.dt = none) (h2 : f.dt_from = some a) (h3 : f.dt_to = some b) :
    resolve_partition_paths spec (some f)
      = (List.range' a (b + 1 - a)).map
          (fun d => partPattern spec.path (dateIso d) (appSeg f) (sessSeg spec f)) := by
  simp only [resolve_partition_paths, daysOf, h1, h2, h3]
  rw [isoDates_eq_range', List.map_map]
  rfl

/-- C4: for a date-range filter with both bounds and `from ≤ to`, `resolve`
produces one pattern per calendar date of `[from, to]` in ascending order —
`(to - from) + 1` of them; a single bound yields exactly the one pattern
for that date. -/
theorem resolve_date_range_patterns (spec : TableSpec) (f : ReadFilters) (a b : Nat)
    (hdt : f.dt = none) :
    (f.dt_from = some a → f.dt_to = some b → a ≤ b →
      resolve_partition_paths spec (some f)
        = (List.range' a (b - a + 1)).map
            (fun d => partPattern spec.path (dateIso d) (appSeg f) (sessSeg spec f))
      ∧ (resolve_partition_paths spec (some f)).length = b - a + 1)
    ∧ (f.dt_from = some a → f.dt_to = none →
      resolve_partition_paths spec (some f)
        = [partPattern spec.path (dateIso a) (appSeg f) (sessSeg spec f)])
    ∧ (f.dt_from = none → f.dt_to = some b →
      resolve_partition_paths spec (some f)
        = [partPattern spec.path (dateIso b) (appSeg f) (sessSeg spec f)]) := by
  refine ⟨?_, ?_, ?_⟩
  · intro h2 h3 hab
    have hn : b + 1 - a = b - a + 1 := by omega
    have he := resolve_range_eq spec f a b hdt h2 h3
    rw [hn] at he
    refine ⟨he, ?_⟩
    rw [he, List.length_map, List.length_range']
  · intro h2 h3
    simp only [resolve_partition_paths, daysOf, hdt, h2, h3]
    rfl
  · intro h2 h3
    simp only [resolve_partition_paths, daysOf, hdt, h2, h3]
    rfl

theorem resolve_date_range_patterns_witness :
    resolve_partition_paths specA
        (some { dt_from := some 3, dt_to := some 5, app_id := some "app" })
      = ["lake/derived/sessions/dt=3/app_id=app/session_id=*/*.parquet",
         "lake/derived/sessions/dt=4/app_id=app/session_id=*/*.parquet",
         "lake/derived/sessions/dt=5/app_id=app/session_id=*/*.parquet"]
    ∧ (resolve_partition_paths specA
        (some { dt_from := some 3, dt_to := some 5, app_id := some "app" })).length = 3 := by
  have h := (resolve_date_range_patterns specA
    { dt_from := some 3, dt_to := some 5, app_id := some "app" } 3 5 rfl).1 rfl rfl
    (by decide)
  exact ⟨by rw [h.1]; rfl, h.2⟩

/-- C5 counterexample: for a table whose partition keys do not contain
`app_id`, an `app_id` filter still narrows the `app_id` path segment
(the claim says it would be wildcarded). -/
theorem resolve_app_filter_narrows_without_key_cex :
    resolve_partition_paths specEvalRuns (some { app_id := some "app123" })
      = ["lake/derived/eval_runs/dt=*/app_id=app123/session_id=*/*.parquet"]
    ∧ ("app_id" ∈ specEvalRuns.partition_keys ↔ False) := by
  exact ⟨rfl, by decide⟩

/-- C5 amended: with an app-id filter `a ≠ ""` and a session-id filter `s`
supplied, every emitted pattern narrows the `app_id` segment to `a`
unconditionally (whether or not `app_id` is a partition key of the spec),
while the session segment is `s` exactly when `session_id` is among the
spec's partition keys and `"*"` otherwise. -/
theorem resolve_segment_narrowing (spec : TableSpec) (f : ReadFilters)
    (a s : String) (ha : f.app_id = some a) (hne : a ≠ "")
    (hs : f.session_id = some s) :
    resolve_partition_paths spec (some f)
      = (daysOf f).map (fun d => partPattern spec.path d a
          (if "session_id" ∈ spec.partition_keys then s else "*")) := by
  have h1 : appSeg f = a := by
    simp [appSeg, pyOr, ha, hne]
  have h2 : sessSeg spec f = if "session_id" ∈ spec.partition_keys then s else "*" := by
    simp [sessSeg, pyStr, hs]
  simp only [resolve_partition_paths]
  rw [h1, h2]

theorem resolve_segment_narrowing_witness :
    resolve_partition_paths specEvalRuns
        (some { app_id := some "a", session_id := some "s1" })
      = (daysOf { app_id := some "a", session_id := some "s1" }).map
          (fun d => partPattern specEvalRuns.path d "a"
            (if "session_id" ∈ specEvalRuns.partition_keys then "s1" else "*")) :=
  resolve_segment_narrowing specEvalRuns
    { app_id := some "a", session_id := some "s1" } "a" "s1" rfl (by decide) rfl

/-- Concrete matched request/response events (witness inputs). -/
def evReq : Event :=
  { dt := "2026-02-08", app_id := "app", session_id := "s1", event_id := 2,
    ts := 1000, event_type := "llm_request", agent_id := some "root",
    request_id := some "r1", model := some "m", provider := some "p",
    input_tokens := some 100, cache_tokens := some 5 }

def evRes : Event :=
  { dt := "2026-02-08", app_id := "app", session_id := "s1", event_id := 3,
    ts := 3000, event_type := "llm_response", request_id := some "r1",
    output_tokens := some 50, ttft_ms := some 500, latency_ms := some 2000 }

/-- C9: every row of `build_model_spans` whose output-token and latency
columns are non-null carries
`otps = output_tokens * 1000 / max(latency_ms, 1)`. -/
theorem build_model_spans_otps (raw : List Event) (row : SpanRow)
    (hrow : row ∈ build_model_spans raw) (o l : Int)
    (ho : row.output_tokens = some o) (hl : row.latency_ms = some l) :
    row.otps = some ((o * 1000 : ℚ) / ((max l 1 : Int) : ℚ)) := by
  unfold build_model_spans at hrow
  rw [List.mem_flatMap] at hrow
  obtain ⟨q, hq, hrow⟩ := hrow
  rw [List.mem_map] at hrow
  obtain ⟨s, hs, rfl⟩ := hrow
  have ho' : s.output_tokens = some o := ho
  have hl' : s.latency_ms = some l := hl
  show otpsOf s.output_tokens s.latency_ms = _
  rw [ho', hl']
  simp [otpsOf, clipLower_one_eq_max]

theorem build_model_spans_otps_witness :
    (mkSpan evReq evRes).otps = some ((50 * 1000 : ℚ) / ((max (2000 : Int) 1 : Int) : ℚ)) :=
  build_model_spans_otps [evReq, evRes] (mkSpan evReq evRes) (List.Mem.head _) 50 2000 rfl rfl

/-- Number of `llm_request` rows carrying a given `request_id`. -/
def reqCount (raw : List Event) (rid : Option String) : Nat :=
  (raw.filter (fun e => e.event_type == "llm_request" && e.request_id == rid)).length

/-- Number of `llm_response` rows carrying a given `request_id`. -/
def resCount (raw : List Event) (rid : Option String) : Nat :=
  (raw.filter (fun e => e.event_type == "llm_response" && e.request_id == rid)).length

/-- Number of span rows produced for a given `request_id`. -/
def spanCount (raw : List Event) (rid : Option String) : Nat :=
  (build_model_spans raw).countP (fun r => r.span_id == rid)

theorem spanCount_eq_mul (raw : List Event) (rid : Option String) :
    spanCount raw rid = reqCount raw rid * resCount raw rid := by
  have key : ∀ (res qs : List Event),
      (qs.flatMap (fun q =>
        (res.filter (fun s => s.request_id == q.request_id)).map (mkSpan q))).countP
          (fun r => r.span_id == rid)
      = (qs.countP (fun q => q.request_id == rid))
        * res.countP (fun s => s.request_id == rid) := by
    intro res qs
    induction qs with
    | nil => simp
    | cons q t ih =>
      rw [List.flatMap_cons, List.countP_append, ih, List.countP_cons, List.countP_map]
      by_cases hq : (q.request_id == rid) = true
      · have hqe : q.request_id = rid := by simpa using hq
        have hconst : ((fun r : SpanRow => r.span_id == rid) ∘ mkSpan q)
            = (fun _ : Event => (true : Bool)) := by
          funext s
          show (q.request_id == rid) = true
          exact hq
        rw [hconst, List.countP_true, hqe, ← List.countP_eq_length_filter]
        simp [Nat.add_mul, Nat.add_comm]
      · have hconst : ((fun r : SpanRow => r.span_id == rid) ∘ mkSpan q)
            = (fun _ : Event => (false : Bool)) := by
          funext s
          show (q.request_id == rid) = false
          simpa using hq
        rw [hconst, List.countP_false]
        simp [Bool.eq_false_iff.mpr hq]
  unfold spanCount reqCount resCount
  simp only [build_model_spans]
  rw [key]
  rw [List.countP_filter, List.countP_filter, ← List.countP_eq_length_filter,
    ← List.countP_eq_length_filter]
  have hc : ∀ ty : String,
      (fun e : Event => e.request_id == rid && e.event_type == ty)
        = (fun e : Event => e.event_type == ty && e.request_id == rid) := by
    intro ty
    funext e
    exact Bool.and_comm _ _
  rw [hc, hc]

/-- C3: when each `request_id` occurs on at most one `llm_request` row and
at most one `llm_response` row, `build_model_spans` yields exactly one span
row for a `request_id` present on both sides and none for a `request_id`
present on only one side (and, being a total function, reports no error
for the unmatched ones). -/
theorem build_model_spans_match_counts (raw : List Event) (rid : Option String)
    (h1 : reqCount raw rid ≤ 1) (h2 : resCount raw rid ≤ 1) :
    spanCount raw rid
      = if 1 ≤ reqCount raw rid ∧ 1 ≤ resCount raw rid then 1 else 0 := by
  rw [spanCount_eq_mul]
  rcases Nat.le_one_iff_eq_zero_or_eq_one.mp h1 with h | h <;>
    rcases Nat.le_one_iff_eq_zero_or_eq_one.mp h2 with h' | h' <;>
      simp [h, h']

/-- A request with no matching response (only its `request_id` differs). -/
def evReqOrphan : Event :=
  { dt := "2026-02-08", app_id := "app", session_id := "s1", event_id := 9,
    ts := 9000, event_type := "llm_request", request_id := some "r9" }

theorem build_model_spans_match_counts_witness :
    (spanCount [evReq, evRes, evReqOrphan] (some "r1")
      = if 1 ≤ reqCount [evReq, evRes, evReqOrphan] (some "r1")
            ∧ 1 ≤ resCount [evReq, evRes, evReqOrphan] (some "r1") then 1 else 0)
    ∧ (spanCount [evReq, evRes, evReqOrphan] (some "r9")
      = if 1 ≤ reqCount [evReq, evRes, evReqOrphan] (some "r9")
            ∧ 1 ≤ resCount [evReq, evRes, evReqOrphan] (some "r9") then 1 else 0)
    ∧ spanCount [evReq, evRes, evReqOrphan] (some "r1") = 1
    ∧ spanCount [evReq, evRes, evReqOrphan] (some "r9") = 0 :=
  ⟨build_model_spans_match_counts [evReq, evRes, evReqOrphan] (some "r1")
      (by decide) (by decide),
   build_model_spans_match_counts [evReq, evRes, evReqOrphan] (some "r9")
      (by decide) (by decide),
   by decide, by decide⟩

theorem fanout_nil {ρ : Type} (m : List (String × List ρ))
    (h : ∀ p ∈ m, p.2 = []) : fanout m = [] := by
  induction m with
  | nil => rfl
  | cons p t ih =>
    rw [fanout, List.flatMap_cons]
    rw [h p (List.mem_cons_self p t), List.map_nil, List.nil_append]
    exact ih (fun q hq => h q (List.mem_cons_of_mem p hq))

theorem mapExcept_ok {α β : Type} (f : α → Except String β) (g : α → β)
    (l : List α) (h : ∀ x ∈ l, f x = Except.ok (g x)) :
    mapExcept f l = Except.ok (l.map g) := by
  induction l with
  | nil => rfl
  | cons x t ih =>
    rw [List.map_cons, mapExcept, h x (List.mem_cons_self x t),
      ih (fun y hy => h y (List.mem_cons_of_mem x hy))]
    rfl

/-- C6: if a multi-output operator produces zero rows across all its
declared outputs for every batch, each per-batch fan-out still yields the
(well-formed, empty) discriminator-tagged table, and the downstream
materialization succeeds with every declared output name present and
mapped to a valid empty table; in particular `BuildTurnsAndErrors` on an
empty batch returns both declared outputs as empty tables. -/
theorem multi_output_empty_fanout {ι ρ : Type} (outputs : List String)
    (transform : List ι → OpOut ρ) (ds : List (List ι))
    (h : ∀ b ∈ ds, ∃ m, transform b = OpOut.multi m
        ∧ keySetEq (m.map Prod.fst) outputs = true
        ∧ ∀ p ∈ m, p.2 = []) :
    (∀ b ∈ ds, (normalize_op_output (transform b) outputs).map fanout
        = Except.ok ([] : List (String × ρ)))
    ∧ applyMulti outputs transform ds
        = Except.ok (outputs.map (fun n => (n, ds.map (fun _ => ([] : List ρ)))))
    ∧ buildTurnsAndErrors ([] : List OpRow)
        = OpOut.multi [("turns", []), ("errors", [])] := by
  have hstep : ∀ b ∈ ds, (normalize_op_output (transform b) outputs).map fanout
      = Except.ok ([] : List (String × ρ)) := by
    intro b hb
    obtain ⟨m, hm, hk, hz⟩ := h b hb
    rw [hm]
    simp only [normalize_op_output, hk, if_true]
    show Except.ok (fanout m) = _
    rw [fanout_nil m hz]
  refine ⟨hstep, ?_, rfl⟩
  unfold applyMulti
  rw [mapExcept_ok _ (fun _ => ([] : List (String × ρ))) ds hstep]
  show Except.ok _ = _
  congr 1
  apply List.map_congr_left
  intro n _
  congr 1
  rw [List.map_map]
  rfl

theorem multi_output_empty_fanout_witness :
    applyMulti buildTurnsAndErrorsOutputs buildTurnsAndErrors [([] : List OpRow)]
      = Except.ok [("turns", [([] : List TRow)]), ("errors", [[]])] :=
  (multi_output_empty_fanout buildTurnsAndErrorsOutputs buildTurnsAndErrors [[]]
    (fun b hb => by
      rw [List.mem_singleton] at hb
      subst hb
      exact ⟨[("turns", []), ("errors", [])], rfl, by decide, by decide⟩)).2.1

theorem buildStep_counters (st : BState) (r : OpRow) (sid : String)
    (hs : r.session_id = some sid) :
    (buildStep st r).counters
      = (assignIdx st.counters sid r.event_type r.turn_index).1 := by
  simp only [buildStep, hs]
  rcases h2 : (assignIdx st.counters sid r.event_type r.turn_index).2 with _ | tidx
  · simp [h2]
  · simp [h2]

/-- C1 (amended): in the streaming operator `BuildTurnsAndErrors`, a row
carrying an explicit `turn_index` sets its session's running counter to
that value, and a following implicit row of the same session is indexed
from that externally supplied value (incremented once by a `turn_start`),
regardless of how many `turn_start` events the session had before. -/
theorem build_turns_explicit_reanchor (pre : List OpRow) (r r' : OpRow)
    (sid : String) (v : Int)
    (h1 : r.session_id = some sid) (h2 : r.turn_index = some v)
    (h3 : r'.session_id = some sid) (h4 : r'.turn_index = none) :
    dictGet (countersAfter (pre ++ [r])) sid = some v
    ∧ (assignIdx (countersAfter (pre ++ [r])) sid r'.event_type r'.turn_index).2
        = some (if r'.event_type == some "turn_start" then v + 1 else v) := by
  have hc : countersAfter (pre ++ [r]) = dictSet (countersAfter pre) sid v := by
    unfold countersAfter
    rw [List.foldl_append, List.foldl_cons, List.foldl_nil]
    rw [buildStep_counters _ r sid h1]
    simp only [h2, assignIdx]
  constructor
  · rw [hc]
    exact dictGet_dictSet_self _ _ _
  · rw [hc, h4]
    by_cases he : (r'.event_type == some "turn_start") = true
    · simp [assignIdx, he, dictGet_dictSet_self]
    · simp [assignIdx, he, dictGet_dictSet_self]

/-- An operator row with an explicit externally supplied `turn_index`. -/
def opExplicit : OpRow :=
  { dt := "2026-02-08", app_id := "app", session_id := some "s",
    event_type := some "message", turn_index := some 5 }

/-- A following implicit `turn_start` row of the same session. -/
def opFollow : OpRow :=
  { dt := "2026-02-08", app_id := "app", session_id := some "s",
    event_type := some "turn_start" }

theorem build_turns_explicit_reanchor_witness :
    dictGet (countersAfter ([] ++ [opExplicit])) "s" = some 5
    ∧ (assignIdx (countersAfter ([] ++ [opExplicit])) "s"
        opFollow.event_type opFollow.turn_index).2
      = some (if opFollow.event_type == some "turn_start" then 5 + 1 else 5) :=
  build_turns_explicit_reanchor [] opExplicit opFollow "s" 5 rfl rfl rfl rfl

/-- Events of one session: a `turn_start`, then a row carrying the explicit
index `5`, then an implicit row. -/
def exStart : Event :=
  { session_id := "s", event_id := 1, ts := 0, event_type := "turn_start" }

def exExplicit : Event :=
  { session_id := "s", event_id := 2, ts := 1, event_type := "message",
    turn_index := some 5 }

def exImplicit : Event :=
  { session_id := "s", event_id := 3, ts := 2, event_type := "message" }

/-- C1 counterexample: the batch `assign_turn_index` of `derivation.py`
discards the explicit `turn_index = 5` (the row comes out with index `1`,
the count of `turn_start` events so far) and the following implicit row
continues from `1`, not from the externally supplied `5`. -/
theorem assign_turn_index_drops_explicit_cex :
    exExplicit.turn_index = some 5
    ∧ (assign_turn_index [exStart, exExplicit, exImplicit]).map Event.turn_index
        = [some 1, some 1, some 1] := by
  exact ⟨rfl, by decide⟩

/-- C10: every session row built by `build_sessions` carries the constant
`status = "success"`, whatever the input turns and raw events contain. -/
theorem build_sessions_status_success (turns : List TurnRowP) (raw : List Event)
    (row : SessionRow) (hrow : row ∈ build_sessions turns raw) :
    row.status = "success" := by
  unfold build_sessions at hrow
  rw [List.mem_map] at hrow
  obtain ⟨k, _, rfl⟩ := hrow
  rfl

/-- A turn row whose own status is `"fail"`. -/
def failTurn : TurnRowP :=
  { dt := "2026-02-08", app_id := "app", session_id := "s",
    turn_index := some 1, start_ts := 0, end_ts := 10, status := "fail",
    error_count := 2 }

theorem build_sessions_status_success_witness :
    (build_sessions [failTurn] []).length = 1
    ∧ (build_sessions [failTurn] []).all (fun r => r.status == "success") = true := by
  refine ⟨by decide, ?_⟩
  rw [List.all_eq_true]
  intro r hr
  have h := build_sessions_status_success [failTurn] [] r hr
  simp [h]
